import Mathlib

/-!
Shallow embedding of the MCP (Model Context Protocol) front-end server in
`src/main.rs` of adi-family/llm-code-indexer-mcp, together with proofs of
the specification claims about its protocol dispatch and session layer.

Modelling conventions:
* `serde_json::Value` is modelled by the inductive `Json` below.  JSON
  numbers are modelled as integers (`Int`); floating-point numbers are not
  modelled (no claim depends on them, and `as_u64`/`as_i64` return `None`
  on non-integral numbers in the source just as they do here on
  out-of-range integers).
* The external index engine `adi_core::Adi` is out of scope of the
  repository; its operations are modelled as an abstract record `Adi` of
  oracle functions returning `Except String _` (Rust `Result<_, Error>`
  with the error stringified, which is all the server ever does with it).
* Effects performed by the server outside the session state (opening the
  engine, reading files from disk) are modelled by an environment `Env`
  of oracle functions.
* `HashSet<String>` is modelled by `Finset String` (pure set semantics:
  no order, no duplicates), `PathBuf` by `String` with `PathBuf::join`
  modelled as separator concatenation.
* `tokio` asynchrony is erased: every handler runs to completion before
  the next request is read, so handlers are plain functions.
-/

namespace Mcp

/-- Model of `serde_json::Value`.  Objects are association lists in
insertion order; `serde_json`'s map lookup is modelled by first-match
lookup. -/
inductive Json where
  | null : Json
  | bool (b : Bool) : Json
  | num (n : Int) : Json
  | str (s : String) : Json
  | arr (xs : List Json) : Json
  | obj (fields : List (String × Json)) : Json

/-- First-match lookup in an association list, modelling map access. -/
def lookupField : List (String × Json) → String → Option Json
  | [], _ => none
  | (k, v) :: rest, key => if k = key then some v else lookupField rest key

/-- Model of `Value::get(key)`: `Some` only on objects containing the key. -/
def Json.get : Json → String → Option Json
  | Json.obj fs, key => lookupField fs key
  | _, _ => none

/-- Model of `Value::as_str`. -/
def Json.asStr : Json → Option String
  | Json.str s => some s
  | _ => none

/-- Model of `Value::as_u64`: integers representable in `u64`. -/
def Json.asU64 : Json → Option Nat
  | Json.num n => if 0 ≤ n ∧ n < 18446744073709551616 then some n.toNat else none
  | _ => none

/-- Model of `Value::as_i64`: integers representable in `i64`. -/
def Json.asI64 : Json → Option Int
  | Json.num n => if -9223372036854775808 ≤ n ∧ n < 9223372036854775808 then some n else none
  | _ => none

mutual

/-- Serialization of a `Json` value to text, modelling both
`serde_json::to_string` and `to_string_pretty` (the whitespace layout of
pretty-printing is not modelled; no claim depends on the rendered text's
layout, and string escaping is likewise not modelled). -/
def Json.render : Json → String
  | Json.null => "null"
  | Json.bool b => cond b "true" "false"
  | Json.num n => toString n
  | Json.str s => "\"" ++ s ++ "\""
  | Json.arr xs => "[" ++ Json.renderArray xs ++ "]"
  | Json.obj fs => "\x7b" ++ Json.renderObject fs ++ "\x7d"

/-- Comma-separated rendering of a JSON array's elements. -/
def Json.renderArray : List Json → String
  | [] => ""
  | [x] => Json.render x
  | x :: xs => Json.render x ++ "," ++ Json.renderArray xs

/-- Comma-separated rendering of a JSON object's fields. -/
def Json.renderObject : List (String × Json) → String
  | [] => ""
  | [(k, v)] => "\"" ++ k ++ "\":" ++ Json.render v
  | (k, v) :: fs => "\"" ++ k ++ "\":" ++ Json.render v ++ "," ++ Json.renderObject fs

end

/-- List-prefix test (the first list is a prefix of the second).  Matches
on the pattern list first so that an empty pattern is a prefix of
anything definitionally. -/
def isPrefixChars : List Char → List Char → Bool
  | [], _ => true
  | a :: as, l =>
    match l with
    | [] => false
    | b :: bs => (a == b) && isPrefixChars as bs

/-- Model of `str::starts_with` on string patterns. -/
def startsWithStr (s p : String) : Bool :=
  isPrefixChars p.data s.data

/-- Model of `str::strip_prefix(p).unwrap_or(s)` (and of the guarded
`strip_prefix(p).unwrap()` after a `starts_with(p)` check): drop the
leading pattern when present, otherwise return the string unchanged. -/
def stripLeading (s p : String) : String :=
  if startsWithStr s p then String.mk (s.data.drop p.data.length) else s

/-- Model of `str::contains` on string patterns (substring test). -/
def strContains (s pat : String) : Bool :=
  (List.range (s.data.length + 1)).any (fun i => isPrefixChars pat.data (s.data.drop i))

/-- Model of `usize::clamp(lo, hi)` from the Rust core library. -/
def clampUsize (x lo hi : Nat) : Nat :=
  if x < lo then lo else if x > hi then hi else x

/-- Numeric value of an ASCII digit character. -/
def digitVal? (c : Char) : Option Nat :=
  if '0' ≤ c ∧ c ≤ '9' then some (c.toNat - '0'.toNat) else none

/-- Decimal value of a digit sequence; `none` when empty or when any
character is not an ASCII digit. -/
def digitsVal : List Char → Option Nat
  | [] => none
  | cs => cs.foldl (fun acc c => acc.bind (fun a => (digitVal? c).map (fun d => a * 10 + d)))
      (some 0)

/-- Model of `str::parse::<i64>`: an optional sign followed by one or
more ASCII digits, rejecting values outside the `i64` range (a Rust
overflow `Err` takes the same error path as a syntax `Err`). -/
def parseI64 (s : String) : Option Int :=
  match s.data with
  | '+' :: rest =>
      (digitsVal rest).bind (fun n =>
        if n ≤ 9223372036854775807 then some (n : Int) else none)
  | '-' :: rest =>
      (digitsVal rest).bind (fun n =>
        if n ≤ 9223372036854775808 then some (-(n : Int)) else none)
  | l =>
      (digitsVal l).bind (fun n =>
        if n ≤ 9223372036854775807 then some (n : Int) else none)

-- ==================== JSON-RPC envelope types ====================

/-- Model of the `JsonRpcRequest` struct. -/
structure JsonRpcRequest where
  jsonrpc : String
  id : Option Json
  method : String
  params : Option Json

/-- Model of the `JsonRpcError` struct. -/
structure JsonRpcError where
  code : Int
  message : String
  data : Option Json

/-- Model of the `JsonRpcResponse` struct.  `result` and `error` are
`Option`s with `skip_serializing_if` in the source; presence/absence is
what the invariants talk about. -/
structure JsonRpcResponse where
  jsonrpc : String
  id : Json
  result : Option Json
  error : Option JsonRpcError

-- ==================== Index-engine boundary types ====================

/-- A code symbol as exposed by the external `adi_core` engine (only the
fields the server reads are modelled; `Language` and `SymbolKind` are
modelled as their `as_str` renderings). -/
structure Symbol where
  id : Int
  name : String
  kind : String
  file_path : String
  signature : Option String
  doc_comment : Option String

/-- A file node of the engine's project tree. -/
structure FileNode where
  path : String
  language : String
  symbols : List Symbol

/-- Result of `adi.get_file`: the file node plus its symbols. -/
structure FileInfo where
  file : FileNode
  symbols : List Symbol

/-- Result of `adi.get_symbol_usage`. -/
structure SymbolUsage where
  reference_count : Nat
  callers : List Symbol
  callees : List Symbol

/-- Result of `adi.get_tree`. -/
structure Tree where
  files : List FileNode

/-- Result of `adi.index`. -/
structure IndexProgress where
  files_processed : Nat
  symbols_indexed : Nat
  errors : List String

/-- Result of `adi.status` (only the fields the server reads). -/
structure IndexStatus where
  indexed_files : Nat
  indexed_symbols : Nat

/-- The external index engine `adi_core::Adi`, modelled as a record of
oracle operations.  Fallible operations return `Except String _` —
the server only ever stringifies engine errors (`to_rpc_error`), so the
error type is the display text.  Operations whose results the server
merely re-serializes are modelled as returning `Json` directly. -/
structure Adi where
  search : String → Nat → Except String Json
  search_symbols : String → Nat → Except String (List Symbol)
  search_files : String → Nat → Except String Json
  get_symbol : Int → Except String Json
  get_file : String → Except String FileInfo
  get_callers : Int → Except String (List Symbol)
  get_callees : Int → Except String (List Symbol)
  get_symbol_usage : Int → Except String SymbolUsage
  get_tree : Unit → Except String Tree
  index : Unit → Except String IndexProgress
  status : Unit → Except String IndexStatus
  config : Unit → Json
  project_path : String
  find_symbols_by_name : String → Except String (List Symbol)

/-- Environment of effects the server performs outside its own state:
`adiOpen` models `adi_core::Adi::open` (the outcome of opening the engine
at a given root path), `read_to_string` models `std::fs::read_to_string`
(`Option` models `Result::ok()`, which is all the server uses). -/
structure Env where
  adiOpen : String → Except String Adi
  read_to_string : String → Option String

/-- The server session state (`McpServer` struct). -/
structure McpServer where
  adi : Option Adi
  project_path : String
  subscribed_resources : Finset String

/-- Model of `McpServer::new`. -/
def McpServer.new : McpServer :=
  { adi := none, project_path := ".", subscribed_resources := ∅ }

-- ==================== MCP payload types ====================

/-- Model of the `McpResource` struct. -/
structure McpResource where
  uri : String
  name : String
  description : Option String
  mime_type : Option String

/-- Model of the `McpResourceContent` struct. -/
structure McpResourceContent where
  uri : String
  mime_type : Option String
  text : Option String
  blob : Option String

/-- Model of the `McpContent` tagged union. -/
inductive McpContent where
  | text (text : String) : McpContent
  | image (data : String) (mime_type : String) : McpContent
  | resource (resource : McpResourceContent) : McpContent

/-- Model of the `McpMessage` struct. -/
structure McpMessage where
  role : String
  content : McpContent

-- ==================== Serialization of engine values ====================

/-- JSON rendering of an optional string field (`serde` serializes `None`
as `null`). -/
def optStrJson : Option String → Json
  | some s => Json.str s
  | none => Json.null

/-- Serde serialization of a `Symbol` (external type; field order as
declared). -/
def symbolToJson (s : Symbol) : Json :=
  Json.obj [("id", Json.num s.id), ("name", Json.str s.name),
    ("kind", Json.str s.kind), ("file_path", Json.str s.file_path),
    ("signature", optStrJson s.signature),
    ("doc_comment", optStrJson s.doc_comment)]

/-- Serde serialization of a `FileNode`. -/
def fileNodeToJson (f : FileNode) : Json :=
  Json.obj [("path", Json.str f.path), ("language", Json.str f.language),
    ("symbols", Json.arr (f.symbols.map symbolToJson))]

/-- Serde serialization of a `FileInfo`. -/
def fileInfoToJson (fi : FileInfo) : Json :=
  Json.obj [("file", fileNodeToJson fi.file),
    ("symbols", Json.arr (fi.symbols.map symbolToJson))]

/-- Serde serialization of a `SymbolUsage`. -/
def usageToJson (u : SymbolUsage) : Json :=
  Json.obj [("reference_count", Json.num u.reference_count),
    ("callers", Json.arr (u.callers.map symbolToJson)),
    ("callees", Json.arr (u.callees.map symbolToJson))]

/-- Serde serialization of a `Tree`. -/
def treeToJson (t : Tree) : Json :=
  Json.obj [("files", Json.arr (t.files.map fileNodeToJson))]

/-- Serde serialization of an `IndexStatus`. -/
def statusToJson (st : IndexStatus) : Json :=
  Json.obj [("indexed_files", Json.num st.indexed_files),
    ("indexed_symbols", Json.num st.indexed_symbols)]

/-- Serde serialization of an `McpResource` (`skip_serializing_if` drops
absent optional fields). -/
def resourceToJson (r : McpResource) : Json :=
  Json.obj ([("uri", Json.str r.uri), ("name", Json.str r.name)]
    ++ (match r.description with
        | some d => [("description", Json.str d)]
        | none => [])
    ++ (match r.mime_type with
        | some m => [("mimeType", Json.str m)]
        | none => []))

/-- Serde serialization of an `McpResourceContent` (`skip_serializing_if`
drops absent optional fields). -/
def resourceContentToJson (c : McpResourceContent) : Json :=
  Json.obj ([("uri", Json.str c.uri)]
    ++ (match c.mime_type with
        | some m => [("mimeType", Json.str m)]
        | none => [])
    ++ (match c.text with
        | some t => [("text", Json.str t)]
        | none => [])
    ++ (match c.blob with
        | some b => [("blob", Json.str b)]
        | none => []))

/-- Serde serialization of an `McpContent` (internally tagged with
`type`). -/
def contentToJson : McpContent → Json
  | McpContent.text t => Json.obj [("type", Json.str "text"), ("text", Json.str t)]
  | McpContent.image d m =>
      Json.obj [("type", Json.str "image"), ("data", Json.str d), ("mimeType", Json.str m)]
  | McpContent.resource r =>
      Json.obj [("type", Json.str "resource"), ("resource", resourceContentToJson r)]

/-- Serde serialization of an `McpMessage`. -/
def messageToJson (m : McpMessage) : Json :=
  Json.obj [("role", Json.str m.role), ("content", contentToJson m.content)]

-- ==================== Helper functions from the source ====================

/-- Model of the `to_rpc_error` helper: wraps an engine-level failure's
display text into an internal error. -/
def to_rpc_error (e : String) : JsonRpcError :=
  { code := -32603, message := e, data := none }

/-- Model of the `tool_result` helper: wraps text into the canonical
single-text-content tool result shape. -/
def tool_result (text : String) : Json :=
  Json.obj [("content", Json.arr [Json.obj [("type", Json.str "text"),
    ("text", Json.str text)]])]

/-- Model of the `language_to_mime` helper.  The external
`adi_core::Language` enum is modelled by its variant name as a string. -/
def language_to_mime (lang : String) : String :=
  match lang with
  | "Rust" => "text/x-rust"
  | "Python" => "text/x-python"
  | "JavaScript" => "text/javascript"
  | "TypeScript" => "text/typescript"
  | "Java" => "text/x-java"
  | "Go" => "text/x-go"
  | "C" => "text/x-c"
  | "Cpp" => "text/x-c++"
  | "CSharp" => "text/x-csharp"
  | "Ruby" => "text/x-ruby"
  | "Php" => "text/x-php"
  | "Kotlin" => "text/x-kotlin"
  | "Scala" => "text/x-scala"
  | "Swift" => "text/x-swift"
  | "Bash" => "text/x-shellscript"
  | "Json" => "application/json"
  | "Yaml" => "text/yaml"
  | "Toml" => "text/x-toml"
  | "Xml" => "application/xml"
  | "Html" => "text/html"
  | "Css" => "text/css"
  | "Markdown" => "text/markdown"
  | _ => "text/plain"

/-- Model of the `get_prompt_description` helper. -/
def get_prompt_description (name : String) : String :=
  match name with
  | "code_review" => "Code review with focus on quality, bugs, and improvements"
  | "explain_symbol" => "Explanation of symbol purpose and usage"
  | "find_similar" => "Search for similar code patterns"
  | "analyze_dependencies" => "Dependency graph analysis"
  | "summarize_file" => "File purpose and content summary"
  | "refactor_suggestions" => "Refactoring recommendations"
  | "architecture_overview" => "Project architecture overview"
  | _ => "Prompt"

/-- The compile-time constant `env!("CARGO_PKG_VERSION")`.  The build
manifest is not part of the sources; the concrete version string is
immaterial to every claim, so it is modelled abstractly by a fixed
string. -/
def cargoPkgVersion : String := "0.1.0"

/-- Model of `Path::file_name` on a string path: the final component,
absent when the path ends in a separator or in `..`. -/
def fileNameOf (p : String) : Option String :=
  match (p.splitOn "/").getLast? with
  | some last => if last = "" ∨ last = ".." then none else some last
  | none => none

/-- Model of `PathBuf::join` (simplified to separator concatenation; no
claim depends on path normalization). -/
def pathJoin (a b : String) : String := a ++ "/" ++ b

-- ==================== Lifecycle: initialize ====================

/-- The success payload that `handle_initialize` always returns: protocol
version string, capability flags for tools/resources/prompts, and the
server name and version. -/
def initResult : Json :=
  Json.obj [
    ("protocolVersion", Json.str "2024-11-05"),
    ("capabilities", Json.obj [
      ("tools", Json.obj [("listChanged", Json.bool false)]),
      ("resources", Json.obj [("subscribe", Json.bool true),
                              ("listChanged", Json.bool true)]),
      ("prompts", Json.obj [("listChanged", Json.bool false)])]),
    ("serverInfo", Json.obj [("name", Json.str "adi-mcp"),
                             ("version", Json.str cargoPkgVersion)])]

/-- Model of `McpServer::handle_initialize` (named `handle_init` here):
optionally re-resolves the project root from `rootUri`, attempts to open
the engine at that root — a failure is logged and otherwise ignored —
and unconditionally returns the capability payload. -/
def handle_init (env : Env) (s : McpServer) (params : Option Json) :
    Except JsonRpcError Json × McpServer :=
  let s1 : McpServer :=
    match params with
    | some p =>
      match (p.get "rootUri").bind Json.asStr with
      | some root_uri => { s with project_path := stripLeading root_uri "file://" }
      | none => s
    | none => s
  let s2 : McpServer :=
    match env.adiOpen s1.project_path with
    | Except.ok adi => { s1 with adi := some adi }
    | Except.error _ => s1
  (Except.ok initResult, s2)

-- ==================== Tools ====================

/-- The JSON-schema-shaped entry of one catalogued tool. -/
def toolEntry (name description : String) (schema : Json) : Json :=
  Json.obj [("name", Json.str name), ("description", Json.str description),
    ("inputSchema", schema)]

/-- Schema of the two query+limit search tools without bounds. -/
def querySchema (queryDescription : String) : Json :=
  Json.obj [("type", Json.str "object"),
    ("properties", Json.obj [
      ("query", Json.obj [("type", Json.str "string"),
        ("description", Json.str queryDescription)]),
      ("limit", Json.obj [("type", Json.str "integer"),
        ("default", Json.num 10)])]),
    ("required", Json.arr [Json.str "query"])]

/-- Schema of an object with one required integer `id` property. -/
def idSchema (idDescription : String) : Json :=
  Json.obj [("type", Json.str "object"),
    ("properties", Json.obj [
      ("id", Json.obj [("type", Json.str "integer"),
        ("description", Json.str idDescription)])]),
    ("required", Json.arr [Json.str "id"])]

/-- Schema of an object with no properties. -/
def emptySchema : Json :=
  Json.obj [("type", Json.str "object"), ("properties", Json.obj [])]

/-- Model of `McpServer::handle_tools_list`: the static catalog of the
eleven tools. -/
def handle_tools_list (_s : McpServer) : Except JsonRpcError Json :=
  Except.ok (Json.obj [("tools", Json.arr [
    toolEntry "search"
      "Semantic search for code symbols using natural language. Returns symbols ranked by relevance."
      (Json.obj [("type", Json.str "object"),
        ("properties", Json.obj [
          ("query", Json.obj [("type", Json.str "string"),
            ("description", Json.str "Natural language search query (e.g., 'function that handles user authentication')")]),
          ("limit", Json.obj [("type", Json.str "integer"),
            ("description", Json.str "Maximum number of results (1-100)"),
            ("default", Json.num 10), ("minimum", Json.num 1),
            ("maximum", Json.num 100)])]),
        ("required", Json.arr [Json.str "query"])]),
    toolEntry "search_symbols"
      "Full-text search for symbols by name. Use for finding specific functions, classes, or variables."
      (querySchema "Symbol name to search (supports partial matching)"),
    toolEntry "search_files"
      "Full-text search for files by path or name."
      (querySchema "File path or name pattern"),
    toolEntry "get_symbol"
      "Get detailed information about a specific symbol by its ID."
      (idSchema "Symbol ID (from search results)"),
    toolEntry "get_file"
      "Get file information including all symbols defined in it."
      (Json.obj [("type", Json.str "object"),
        ("properties", Json.obj [
          ("path", Json.obj [("type", Json.str "string"),
            ("description", Json.str "File path relative to project root")])]),
        ("required", Json.arr [Json.str "path"])]),
    toolEntry "get_callers"
      "Find all symbols that call/reference a given symbol."
      (idSchema "Symbol ID to find callers for"),
    toolEntry "get_callees"
      "Find all symbols that a given symbol calls/references."
      (idSchema "Symbol ID to find callees for"),
    toolEntry "get_symbol_usage"
      "Get complete usage statistics for a symbol including reference count, callers, and callees."
      (idSchema "Symbol ID"),
    toolEntry "get_tree"
      "Get the complete project structure as a hierarchical tree of files and symbols."
      emptySchema,
    toolEntry "index"
      "Index or re-index the project. Parses all source files and generates embeddings."
      emptySchema,
    toolEntry "status"
      "Get current indexing status including file/symbol counts and storage size."
      emptySchema])])

/-- Model of `McpServer::handle_tools_call`.  The source takes `&mut self`
but performs no writes to the session, so it is embedded as a read-only
function of the state. -/
def handle_tools_call (s : McpServer) (params? : Option Json) :
    Except JsonRpcError Json :=
  match params? with
  | none => Except.error { code := -32602, message := "Missing params", data := none }
  | some params =>
    match (params.get "name").bind Json.asStr with
    | none => Except.error { code := -32602, message := "Missing tool name", data := none }
    | some name =>
      let arguments := (params.get "arguments").getD (Json.obj [])
      match s.adi with
      | none => Except.error { code := -32603,
                               message := "ADI not initialized. Call initialize first.",
                               data := none }
      | some adi =>
        match name with
        | "search" =>
          let query := ((arguments.get "query").bind Json.asStr).getD ""
          let limit := ((arguments.get "limit").bind Json.asU64).getD 10
          let limit := clampUsize limit 1 100
          match adi.search query limit with
          | Except.ok results => Except.ok (tool_result (Json.render results))
          | Except.error e => Except.error (to_rpc_error e)
        | "search_symbols" =>
          let query := ((arguments.get "query").bind Json.asStr).getD ""
          let limit := ((arguments.get "limit").bind Json.asU64).getD 10
          match adi.search_symbols query limit with
          | Except.ok results =>
              Except.ok (tool_result (Json.render (Json.arr (results.map symbolToJson))))
          | Except.error e => Except.error (to_rpc_error e)
        | "search_files" =>
          let query := ((arguments.get "query").bind Json.asStr).getD ""
          let limit := ((arguments.get "limit").bind Json.asU64).getD 10
          match adi.search_files query limit with
          | Except.ok results => Except.ok (tool_result (Json.render results))
          | Except.error e => Except.error (to_rpc_error e)
        | "get_symbol" =>
          match (arguments.get "id").bind Json.asI64 with
          | none => Except.error { code := -32602, message := "Missing symbol id", data := none }
          | some id =>
            match adi.get_symbol id with
            | Except.ok symbol => Except.ok (tool_result (Json.render symbol))
            | Except.error e => Except.error (to_rpc_error e)
        | "get_file" =>
          match (arguments.get "path").bind Json.asStr with
          | none => Except.error { code := -32602, message := "Missing file path", data := none }
          | some path =>
            match adi.get_file path with
            | Except.ok file_info => Except.ok (tool_result (Json.render (fileInfoToJson file_info)))
            | Except.error e => Except.error (to_rpc_error e)
        | "get_callers" =>
          match (arguments.get "id").bind Json.asI64 with
          | none => Except.error { code := -32602, message := "Missing symbol id", data := none }
          | some id =>
            match adi.get_callers id with
            | Except.ok callers =>
                Except.ok (tool_result (Json.render (Json.arr (callers.map symbolToJson))))
            | Except.error e => Except.error (to_rpc_error e)
        | "get_callees" =>
          match (arguments.get "id").bind Json.asI64 with
          | none => Except.error { code := -32602, message := "Missing symbol id", data := none }
          | some id =>
            match adi.get_callees id with
            | Except.ok callees =>
                Except.ok (tool_result (Json.render (Json.arr (callees.map symbolToJson))))
            | Except.error e => Except.error (to_rpc_error e)
        | "get_symbol_usage" =>
          match (arguments.get "id").bind Json.asI64 with
          | none => Except.error { code := -32602, message := "Missing symbol id", data := none }
          | some id =>
            match adi.get_symbol_usage id with
            | Except.ok usage => Except.ok (tool_result (Json.render (usageToJson usage)))
            | Except.error e => Except.error (to_rpc_error e)
        | "get_tree" =>
          match adi.get_tree () with
          | Except.ok tree => Except.ok (tool_result (Json.render (treeToJson tree)))
          | Except.error e => Except.error (to_rpc_error e)
        | "index" =>
          match adi.index () with
          | Except.ok progress =>
              Except.ok (tool_result ("Indexed " ++ toString progress.files_processed
                ++ " files with " ++ toString progress.symbols_indexed
                ++ " symbols. Errors: "
                ++ (if progress.errors.isEmpty then "none"
                    else String.intercalate ", " progress.errors)))
          | Except.error e => Except.error (to_rpc_error e)
        | "status" =>
          match adi.status () with
          | Except.ok st => Except.ok (tool_result (Json.render (statusToJson st)))
          | Except.error e => Except.error (to_rpc_error e)
        | _ => Except.error { code := -32602, message := "Unknown tool: " ++ name, data := none }

-- ==================== Resources ====================

/-- The `McpResource` entry derived from one file node of the tree. -/
def fileNodeToResource (f : FileNode) : McpResource :=
  { uri := "adi://file/" ++ f.path,
    name := (fileNameOf f.path).getD f.path,
    description := some (f.language ++ " file with " ++ toString f.symbols.length ++ " symbols"),
    mime_type := some (language_to_mime f.language) }

/-- Model of `McpServer::handle_resources_list`: empty list when the
engine is absent, otherwise the three virtual resources plus up to 100
file resources from the current tree (a tree failure contributes no file
resources).  The `cursor` parameter is read and ignored in the source. -/
def handle_resources_list (s : McpServer) (_params? : Option Json) :
    Except JsonRpcError Json :=
  match s.adi with
  | none => Except.ok (Json.obj [("resources", Json.arr [])])
  | some adi =>
    let base : List McpResource :=
      [{ uri := "adi://status", name := "Index Status",
         description := some "Current indexing status and statistics",
         mime_type := some "application/json" },
       { uri := "adi://tree", name := "Project Tree",
         description := some "Hierarchical view of all indexed files and symbols",
         mime_type := some "application/json" },
       { uri := "adi://config", name := "Configuration",
         description := some "Current ADI configuration",
         mime_type := some "application/json" }]
    let fileResources : List McpResource :=
      match adi.get_tree () with
      | Except.ok tree => (tree.files.take 100).map fileNodeToResource
      | Except.error _ => []
    Except.ok (Json.obj [("resources",
      Json.arr ((base ++ fileResources).map resourceToJson))])

/-- Model of `McpServer::handle_resources_read`: requires `uri` and the
engine, resolves the three virtual URIs exactly and the `adi://file/`,
`adi://symbol/` families by prefix, in source order; any other URI is an
invalid-params error. -/
def handle_resources_read (env : Env) (s : McpServer) (params? : Option Json) :
    Except JsonRpcError Json :=
  match params? with
  | none => Except.error { code := -32602, message := "Missing params", data := none }
  | some params =>
    match (params.get "uri").bind Json.asStr with
    | none => Except.error { code := -32602, message := "Missing uri parameter", data := none }
    | some uri =>
      match s.adi with
      | none => Except.error { code := -32603, message := "ADI not initialized", data := none }
      | some adi =>
        if uri = "adi://status" then
          match adi.status () with
          | Except.ok st =>
              Except.ok (Json.obj [("contents", Json.arr [resourceContentToJson
                { uri := uri, mime_type := some "application/json",
                  text := some (Json.render (statusToJson st)), blob := none }])])
          | Except.error e => Except.error (to_rpc_error e)
        else if uri = "adi://tree" then
          match adi.get_tree () with
          | Except.ok tree =>
              Except.ok (Json.obj [("contents", Json.arr [resourceContentToJson
                { uri := uri, mime_type := some "application/json",
                  text := some (Json.render (treeToJson tree)), blob := none }])])
          | Except.error e => Except.error (to_rpc_error e)
        else if uri = "adi://config" then
          Except.ok (Json.obj [("contents", Json.arr [resourceContentToJson
            { uri := uri, mime_type := some "application/json",
              text := some (Json.render (adi.config ())), blob := none }])])
        else if startsWithStr uri "adi://file/" then
          let path := stripLeading uri "adi://file/"
          match adi.get_file path with
          | Except.ok file_info =>
            let full_path := pathJoin adi.project_path path
            let file_content := env.read_to_string full_path
            let content_text :=
              match file_content with
              | some content =>
                  Json.render (Json.obj [("file", fileNodeToJson file_info.file),
                    ("symbols", Json.arr (file_info.symbols.map symbolToJson)),
                    ("content", Json.str content)])
              | none => Json.render (fileInfoToJson file_info)
            Except.ok (Json.obj [("contents", Json.arr [resourceContentToJson
              { uri := uri, mime_type := some (language_to_mime file_info.file.language),
                text := some content_text, blob := none }])])
          | Except.error e => Except.error (to_rpc_error e)
        else if startsWithStr uri "adi://symbol/" then
          let id_str := stripLeading uri "adi://symbol/"
          match parseI64 id_str with
          | none => Except.error { code := -32602, message := "Invalid symbol ID", data := none }
          | some id =>
            match adi.get_symbol id with
            | Except.ok symbol =>
              let usage := (adi.get_symbol_usage id).toOption
              let content_obj := Json.obj [("symbol", symbol),
                ("usage", match usage with
                          | some u => usageToJson u
                          | none => Json.null)]
              Except.ok (Json.obj [("contents", Json.arr [resourceContentToJson
                { uri := uri, mime_type := some "application/json",
                  text := some (Json.render content_obj), blob := none }])])
            | Except.error e => Except.error (to_rpc_error e)
        else
          Except.error { code := -32602, message := "Unknown resource URI: " ++ uri, data := none }

/-- Model of `McpServer::handle_resources_subscribe`: requires `uri`,
inserts it into the subscription set, and succeeds with an empty
object. -/
def handle_resources_subscribe (s : McpServer) (params? : Option Json) :
    Except JsonRpcError Json × McpServer :=
  match params? with
  | none => (Except.error { code := -32602, message := "Missing params", data := none }, s)
  | some params =>
    match (params.get "uri").bind Json.asStr with
    | none => (Except.error { code := -32602, message := "Missing uri parameter", data := none }, s)
    | some uri =>
      (Except.ok (Json.obj []),
       { s with subscribed_resources := insert uri s.subscribed_resources })

/-- Model of `McpServer::handle_resources_unsubscribe`: requires `uri`,
removes it from the subscription set, and succeeds with an empty
object. -/
def handle_resources_unsubscribe (s : McpServer) (params? : Option Json) :
    Except JsonRpcError Json × McpServer :=
  match params? with
  | none => (Except.error { code := -32602, message := "Missing params", data := none }, s)
  | some params =>
    match (params.get "uri").bind Json.asStr with
    | none => (Except.error { code := -32602, message := "Missing uri parameter", data := none }, s)
    | some uri =>
      (Except.ok (Json.obj []),
       { s with subscribed_resources := s.subscribed_resources.erase uri })

/-- Model of `McpServer::handle_resource_templates_list`: the static
catalog of the two parameterized URI templates. -/
def handle_resource_templates_list (_s : McpServer) : Except JsonRpcError Json :=
  Except.ok (Json.obj [("resourceTemplates", Json.arr [
    Json.obj [("uriTemplate", Json.str "adi://file/\x7bpath\x7d"),
      ("name", Json.str "Source File"),
      ("description", Json.str "Access indexed source file with symbols and content"),
      ("mimeType", Json.str "application/json")],
    Json.obj [("uriTemplate", Json.str "adi://symbol/\x7bid\x7d"),
      ("name", Json.str "Symbol Details"),
      ("description", Json.str "Get detailed information about a symbol by ID"),
      ("mimeType", Json.str "application/json")]])])

-- ==================== Prompts ====================

/-- One prompt-catalog argument entry. -/
def promptArg (name description : String) (required : Bool) : Json :=
  Json.obj [("name", Json.str name), ("description", Json.str description),
    ("required", Json.bool required)]

/-- Model of `McpServer::handle_prompts_list`: the static catalog of the
seven prompt templates. -/
def handle_prompts_list (_s : McpServer) (_params? : Option Json) :
    Except JsonRpcError Json :=
  Except.ok (Json.obj [("prompts", Json.arr [
    Json.obj [("name", Json.str "code_review"),
      ("description", Json.str "Review code in a file for quality, bugs, and improvements"),
      ("arguments", Json.arr [
        promptArg "file_path" "Path to the file to review (relative to project root)" true,
        promptArg "focus" "Specific aspect to focus on (security, performance, style, bugs)" false])],
    Json.obj [("name", Json.str "explain_symbol"),
      ("description", Json.str "Explain what a symbol does and how it's used in the codebase"),
      ("arguments", Json.arr [
        promptArg "symbol_name" "Name of the symbol to explain" true])],
    Json.obj [("name", Json.str "find_similar"),
      ("description", Json.str "Find similar code patterns or implementations in the codebase"),
      ("arguments", Json.arr [
        promptArg "description" "Description of the code pattern to find" true])],
    Json.obj [("name", Json.str "analyze_dependencies"),
      ("description", Json.str "Analyze the dependency graph of a symbol or file"),
      ("arguments", Json.arr [
        promptArg "target" "Symbol name or file path to analyze" true,
        promptArg "direction" "Direction to analyze: 'callers' (who uses this), 'callees' (what this uses), or 'both'" false])],
    Json.obj [("name", Json.str "summarize_file"),
      ("description", Json.str "Generate a summary of a file's purpose and contents"),
      ("arguments", Json.arr [
        promptArg "file_path" "Path to the file to summarize" true])],
    Json.obj [("name", Json.str "refactor_suggestions"),
      ("description", Json.str "Suggest refactoring opportunities for a symbol or file"),
      ("arguments", Json.arr [
        promptArg "target" "Symbol name or file path to analyze" true])],
    Json.obj [("name", Json.str "architecture_overview"),
      ("description", Json.str "Generate an overview of the project architecture based on indexed symbols"),
      ("arguments", Json.arr [])]])])

/-- The single user-role text message every prompt template produces. -/
def userMessage (text : String) : McpMessage :=
  { role := "user", content := McpContent.text text }

/-- Grouping of tree files by language with per-language file counts,
modelling the `HashMap` fold in `architecture_overview`.  The hash map's
iteration order is unspecified in the source; it is modelled as
first-appearance order (no claim depends on the ordering). -/
def groupByLanguage (files : List FileNode) : List (String × Nat) :=
  ((files.map (fun f => f.language)).dedup).map
    (fun lang => (lang, (files.filter (fun f => f.language = lang)).length))

/-- Model of `McpServer::handle_prompts_get`: requires `name` and the
engine; each template builds one user-role text message; an unrecognized
template name is an invalid-params error. -/
def handle_prompts_get (env : Env) (s : McpServer) (params? : Option Json) :
    Except JsonRpcError Json :=
  match params? with
  | none => Except.error { code := -32602, message := "Missing params", data := none }
  | some params =>
    match (params.get "name").bind Json.asStr with
    | none => Except.error { code := -32602, message := "Missing prompt name", data := none }
    | some name =>
      let arguments := (params.get "arguments").getD (Json.obj [])
      match s.adi with
      | none => Except.error { code := -32603, message := "ADI not initialized", data := none }
      | some adi =>
        let messages? : Except JsonRpcError (List McpMessage) :=
          match name with
          | "code_review" =>
            let file_path := ((arguments.get "file_path").bind Json.asStr).getD ""
            let focus := ((arguments.get "focus").bind Json.asStr).getD "general"
            let file_info := (adi.get_file file_path).toOption
            let full_path := pathJoin adi.project_path file_path
            let content := env.read_to_string full_path
            let context :=
              match file_info with
              | some info =>
                  "File: " ++ file_path ++ "\nLanguage: " ++ info.file.language
                  ++ "\nSymbols: "
                  ++ String.intercalate ", "
                       (info.symbols.map (fun sy => sy.name ++ " (" ++ sy.kind ++ ")"))
                  ++ "\n"
              | none => "File: " ++ file_path
            Except.ok [userMessage
              ("Please review the following code with a focus on " ++ focus ++ ".\n\n"
               ++ context ++ "\n\nCode:\n```\n"
               ++ content.getD "[File content not available]"
               ++ "\n```\n\nProvide specific, actionable feedback.")]
          | "explain_symbol" =>
            let symbol_name := ((arguments.get "symbol_name").bind Json.asStr).getD ""
            let symbols := (adi.find_symbols_by_name symbol_name).toOption.getD []
            let usage_info := (symbols.take 3).filterMap
              (fun sy => ((adi.get_symbol_usage sy.id).toOption).map (fun u => (sy, u)))
            let context :=
              if usage_info.isEmpty then
                "No symbol found with name: " ++ symbol_name
              else
                String.intercalate "\n\n---\n\n" (usage_info.map (fun su =>
                  "Symbol: " ++ su.1.name ++ " (" ++ su.1.kind ++ ")\nFile: "
                  ++ su.1.file_path ++ "\nSignature: " ++ su.1.signature.getD "N/A"
                  ++ "\nDoc: " ++ su.1.doc_comment.getD "N/A"
                  ++ "\nCallers: "
                  ++ String.intercalate ", " (su.2.callers.map (fun c => c.name))
                  ++ "\nCallees: "
                  ++ String.intercalate ", " (su.2.callees.map (fun c => c.name))))
            Except.ok [userMessage
              ("Please explain what '" ++ symbol_name
               ++ "' does and how it's used in this codebase.\n\nContext from code index:\n"
               ++ context)]
          | "find_similar" =>
            let description := ((arguments.get "description").bind Json.asStr).getD ""
            Except.ok [userMessage
              ("Find code in this codebase that is similar to or implements: " ++ description
               ++ "\n\nUse the 'search' tool with semantic search to find relevant symbols, then analyze them.")]
          | "analyze_dependencies" =>
            let target := ((arguments.get "target").bind Json.asStr).getD ""
            let direction := ((arguments.get "direction").bind Json.asStr).getD "both"
            let symbols := (adi.find_symbols_by_name target).toOption.getD []
            let dep_info := String.join ((symbols.take 1).filterMap (fun sy =>
              let callers := if direction ≠ "callees" then (adi.get_callers sy.id).toOption else none
              let callees := if direction ≠ "callers" then (adi.get_callees sy.id).toOption else none
              some ("Symbol: " ++ sy.name ++ " (" ++ sy.kind ++ ")\nFile: " ++ sy.file_path
                ++ "\nCallers (" ++ toString ((callers.map (fun c => c.length)).getD 0) ++ "):\n"
                ++ (match callers with
                    | some c => String.intercalate "\n" (c.map (fun x =>
                        "  - " ++ x.name ++ " (" ++ x.file_path ++ ")"))
                    | none => "N/A")
                ++ "\n\nCallees (" ++ toString ((callees.map (fun c => c.length)).getD 0) ++ "):\n"
                ++ (match callees with
                    | some c => String.intercalate "\n" (c.map (fun x =>
                        "  - " ++ x.name ++ " (" ++ x.file_path ++ ")"))
                    | none => "N/A"))))
            Except.ok [userMessage
              ("Analyze the dependency graph for '" ++ target ++ "' (direction: " ++ direction
               ++ ").\n\nDependency Information:\n"
               ++ (if dep_info.isEmpty then "No symbol found" else dep_info))]
          | "summarize_file" =>
            let file_path := ((arguments.get "file_path").bind Json.asStr).getD ""
            let file_info := (adi.get_file file_path).toOption
            let full_path := pathJoin adi.project_path file_path
            let content := env.read_to_string full_path
            let symbols_summary := ((file_info.map (fun info =>
              String.intercalate "\n" (info.symbols.map (fun sy =>
                "- " ++ sy.name ++ " (" ++ sy.kind ++ "): "
                ++ sy.doc_comment.getD "no documentation"))))).getD ""
            Except.ok [userMessage
              ("Please summarize the purpose and contents of this file.\n\nFile: " ++ file_path
               ++ "\nLanguage: " ++ ((file_info.map (fun i => i.file.language)).getD "unknown")
               ++ "\n\nSymbols:\n" ++ symbols_summary
               ++ "\n\nCode:\n```\n" ++ content.getD "[Content not available]" ++ "\n```")]
          | "refactor_suggestions" =>
            let target := ((arguments.get "target").bind Json.asStr).getD ""
            let symbols := (adi.find_symbols_by_name target).toOption.getD []
            let context := String.join ((symbols.take 1).filterMap (fun sy =>
              ((adi.get_symbol_usage sy.id).toOption).map (fun usage =>
                "Symbol: " ++ sy.name ++ " (" ++ sy.kind ++ ")\nFile: " ++ sy.file_path
                ++ "\nReferences: " ++ toString usage.reference_count
                ++ "\nCallers: " ++ toString usage.callers.length
                ++ "\nCallees: " ++ toString usage.callees.length)))
            Except.ok [userMessage
              ("Suggest refactoring opportunities for '" ++ target ++ "'.\n\nContext:\n"
               ++ (if context.isEmpty then
                     "No symbol found. Try searching with the 'search' tool."
                   else context))]
          | "architecture_overview" =>
            let tree := (adi.get_tree ()).toOption
            let status := (adi.status ()).toOption
            let overview :=
              match tree with
              | some t =>
                  "Project Statistics:\n- Total files: "
                  ++ toString ((status.map (fun st => st.indexed_files)).getD 0)
                  ++ "\n- Total symbols: "
                  ++ toString ((status.map (fun st => st.indexed_symbols)).getD 0)
                  ++ "\n\nFiles by language:\n"
                  ++ String.intercalate "\n" ((groupByLanguage t.files).map (fun lf =>
                       "- " ++ lf.1 ++ ": " ++ toString lf.2 ++ " files"))
              | none => "No index available. Run the 'index' tool first."
            Except.ok [userMessage
              ("Generate an architecture overview for this project based on the indexed structure.\n\n"
               ++ overview)]
          | _ => Except.error { code := -32602, message := "Unknown prompt: " ++ name, data := none }
        match messages? with
        | Except.ok messages =>
            Except.ok (Json.obj [("description", Json.str (get_prompt_description name)),
              ("messages", Json.arr (messages.map messageToJson))])
        | Except.error e => Except.error e

-- ==================== Completion ====================

/-- The completion result payload wrapping a candidate list; `hasMore` is
always `false`. -/
def completionResult (values : List String) : Json :=
  Json.obj [("completion", Json.obj [("values", Json.arr (values.map Json.str)),
    ("hasMore", Json.bool false)])]

/-- Model of `McpServer::handle_completion`: requires `ref`; extracts
`ref.type`, `argument.name` and `argument.value` with empty-string
fallbacks; with no engine returns an empty candidate list; otherwise
generates candidates keyed by the (ref type, argument name) pair in the
source's match order. -/
def handle_completion (s : McpServer) (params? : Option Json) :
    Except JsonRpcError Json :=
  match params? with
  | none => Except.error { code := -32602, message := "Missing params", data := none }
  | some params =>
    match params.get "ref" with
    | none => Except.error { code := -32602, message := "Missing ref parameter", data := none }
    | some ref_obj =>
      let ref_type := ((ref_obj.get "type").bind Json.asStr).getD ""
      let argument_name := (((params.get "argument").bind (fun a => a.get "name")).bind Json.asStr).getD ""
      let argument_value := (((params.get "argument").bind (fun a => a.get "value")).bind Json.asStr).getD ""
      match s.adi with
      | none => Except.ok (completionResult [])
      | some adi =>
        let completions : List String :=
          if (ref_type = "ref/prompt" ∧ argument_name = "file_path") ∨ ref_type = "ref/resource" then
            match adi.get_tree () with
            | Except.ok tree =>
                (((tree.files.map (fun f => f.path)).filter
                  (fun p => strContains p argument_value)).take 20)
            | Except.error _ => []
          else if ref_type = "ref/prompt" ∧ (argument_name = "symbol_name" ∨ argument_name = "target") then
            if argument_value ≠ "" then
              match adi.search_symbols argument_value 20 with
              | Except.ok symbols => symbols.map (fun sy => sy.name)
              | Except.error _ => []
            else []
          else if ref_type = "ref/prompt" ∧ argument_name = "focus" then
            (["security", "performance", "style", "bugs", "general"]).filter
              (fun f => strContains f argument_value)
          else if ref_type = "ref/prompt" ∧ argument_name = "direction" then
            (["callers", "callees", "both"]).filter
              (fun d => strContains d argument_value)
          else []
        Except.ok (completionResult completions)

-- ==================== Dispatch ====================

/-- The routing table of `McpServer::handle_request`: maps a method name
to its handler's outcome and the resulting session state.  Handlers that
take `&self` (or take `&mut self` but never write, like `tools/call`)
leave the state unchanged. -/
def dispatch (env : Env) (s : McpServer) (request : JsonRpcRequest) :
    Except JsonRpcError Json × McpServer :=
  match request.method with
  | "initialize" => handle_init env s request.params
  | "initialized" => (Except.ok (Json.obj []), s)
  | "ping" => (Except.ok (Json.obj []), s)
  | "tools/list" => (handle_tools_list s, s)
  | "tools/call" => (handle_tools_call s request.params, s)
  | "resources/list" => (handle_resources_list s request.params, s)
  | "resources/read" => (handle_resources_read env s request.params, s)
  | "resources/subscribe" => handle_resources_subscribe s request.params
  | "resources/unsubscribe" => handle_resources_unsubscribe s request.params
  | "resources/templates/list" => (handle_resource_templates_list s, s)
  | "prompts/list" => (handle_prompts_list s request.params, s)
  | "prompts/get" => (handle_prompts_get env s request.params, s)
  | "completion/complete" => (handle_completion s request.params, s)
  | m => (Except.error { code := -32601, message := "Method not found: " ++ m, data := none }, s)

/-- Model of `McpServer::handle_request`: routes to the handler and wraps
its outcome into a response echoing the request id (`null` when absent),
with `result` set on success and `error` set on failure. -/
def handle_request (env : Env) (s : McpServer) (request : JsonRpcRequest) :
    JsonRpcResponse × McpServer :=
  match dispatch env s request with
  | (Except.ok r, s2) =>
      ({ jsonrpc := "2.0", id := request.id.getD Json.null, result := some r, error := none }, s2)
  | (Except.error e, s2) =>
      ({ jsonrpc := "2.0", id := request.id.getD Json.null, result := none, error := some e }, s2)

-- ==================== Definitions used by the claim theorems ====================

/-- The `arguments` object of a `tools/call` params value (defaults to an
empty object, as in the source). -/
def argsOf (p : Json) : Json :=
  (p.get "arguments").getD (Json.obj [])

/-- The query string the `search` tool extracts from its arguments. -/
def searchQuery (arguments : Json) : String :=
  ((arguments.get "query").bind Json.asStr).getD ""

/-- The limit the `search` tool actually passes to the engine: the
caller-supplied `limit` (default 10) clamped into [1, 100]. -/
def searchLimit (arguments : Json) : Nat :=
  clampUsize (((arguments.get "limit").bind Json.asU64).getD 10) 1 100

/-- The outcome of the `search` tool as a function of the engine call it
performs. -/
def searchCall (adi : Adi) (q : String) (l : Nat) : Except JsonRpcError Json :=
  match adi.search q l with
  | Except.ok results => Except.ok (tool_result (Json.render results))
  | Except.error e => Except.error (to_rpc_error e)

/-- The success payload of a `resources/read` on an `adi://symbol/{id}`
URI: one JSON content item carrying the symbol and its (optional) usage
statistics. -/
def symbolReadResult (uri : String) (symbol : Json) (usage : Option SymbolUsage) : Json :=
  Json.obj [("contents", Json.arr [resourceContentToJson
    { uri := uri, mime_type := some "application/json",
      text := some (Json.render (Json.obj [("symbol", symbol),
        ("usage", match usage with
                  | some u => usageToJson u
                  | none => Json.null)])),
      blob := none }])]

/-- The fixed candidate set for completing the `focus` prompt argument,
in source order. -/
def focusCandidates : List String :=
  ["security", "performance", "style", "bugs", "general"]

-- ==================== Concrete fixtures for witnesses ====================

/-- An engine whose every fallible operation fails; used as a concrete
engine instance in witnesses (the theorems quantify over all engines). -/
def trivialAdi : Adi :=
  { search := fun _ _ => Except.error "engine unavailable",
    search_symbols := fun _ _ => Except.error "engine unavailable",
    search_files := fun _ _ => Except.error "engine unavailable",
    get_symbol := fun _ => Except.error "engine unavailable",
    get_file := fun _ => Except.error "engine unavailable",
    get_callers := fun _ => Except.error "engine unavailable",
    get_callees := fun _ => Except.error "engine unavailable",
    get_symbol_usage := fun _ => Except.error "engine unavailable",
    get_tree := fun _ => Except.error "engine unavailable",
    index := fun _ => Except.error "engine unavailable",
    status := fun _ => Except.error "engine unavailable",
    config := fun _ => Json.null,
    project_path := ".",
    find_symbols_by_name := fun _ => Except.error "engine unavailable" }

/-- An environment where opening the engine fails and no file is
readable. -/
def trivialEnv : Env :=
  { adiOpen := fun _ => Except.error "open failed",
    read_to_string := fun _ => none }

/-- A session whose engine is present. -/
def readyServer : McpServer :=
  { adi := some trivialAdi, project_path := ".", subscribed_resources := ∅ }

/-- An engine where symbol lookup succeeds but usage lookup fails. -/
def symAdi : Adi :=
  { trivialAdi with
    get_symbol := fun _ => Except.ok Json.null,
    get_symbol_usage := fun _ => Except.error "usage unavailable" }

/-- A session holding `symAdi`. -/
def symServer : McpServer :=
  { adi := some symAdi, project_path := ".", subscribed_resources := ∅ }

/-- A `ping` request with a given id, used in witnesses. -/
def pingReq (id : Option Json) : JsonRpcRequest :=
  { jsonrpc := "2.0", id := id, method := "ping", params := none }

-- ==================== Claim theorems ====================

/-- C1: every response produced by `handle_request` carries exactly one
of `result` and `error`: a successful handler outcome yields `result`
present and `error` absent, a failing outcome yields `error` present and
`result` absent — never both, never neither. -/
theorem C1_result_error_exclusive (env : Env) (s : McpServer) (req : JsonRpcRequest) :
    (((handle_request env s req).1.result.isSome = true
      ∧ (handle_request env s req).1.error = none)
     ∨ ((handle_request env s req).1.result = none
        ∧ (handle_request env s req).1.error.isSome = true)) := by
  cases hd : dispatch env s req with
  | mk r s2 =>
    cases r with
    | ok v => left; simp [handle_request, hd]
    | error e => right; simp [handle_request, hd]

/-- C2: the response id equals the request id verbatim whenever the
request has one (number or string alike, the JSON value is echoed
unchanged), and is JSON `null` when the request id is absent — never
omitted. -/
theorem C2_id_echoed (env : Env) (s : McpServer) (req : JsonRpcRequest) :
    ((∀ j, req.id = some j → (handle_request env s req).1.id = j)
     ∧ (req.id = none → (handle_request env s req).1.id = Json.null)) := by
  have hid : (handle_request env s req).1.id = req.id.getD Json.null := by
    cases hd : dispatch env s req with
    | mk r s2 => cases r <;> simp [handle_request, hd]
  constructor
  · intro j hj
    rw [hid, hj]
    rfl
  · intro hj
    rw [hid, hj]
    rfl

/-- C2 witness: a request with numeric id 42 is answered with id 42, and
a request without id is answered with id null. -/
theorem C2_id_echoed_witness :
    (handle_request trivialEnv McpServer.new (pingReq (some (Json.num 42)))).1.id = Json.num 42
    ∧ (handle_request trivialEnv McpServer.new (pingReq none)).1.id = Json.null :=
  ⟨(C2_id_echoed trivialEnv McpServer.new (pingReq (some (Json.num 42)))).1 (Json.num 42) rfl,
   (C2_id_echoed trivialEnv McpServer.new (pingReq none)).2 rfl⟩

/-- C3: `initialize` always returns a success result carrying the full
capability payload — for every environment (hence for both a successful
and a failing engine open) and every params value; an engine-open
failure is never surfaced as a protocol error. -/
theorem C3_init_always_succeeds (env : Env) (s : McpServer) (req : JsonRpcRequest)
    (hm : req.method = "initialize") :
    (handle_request env s req).1.result = some initResult
    ∧ (handle_request env s req).1.error = none
    ∧ (handle_init env s req.params).1 = Except.ok initResult := by
  have hfst : (handle_init env s req.params).1 = Except.ok initResult := rfl
  cases hh : handle_init env s req.params with
  | mk r s2 =>
    have hr : r = Except.ok initResult := by
      rw [hh] at hfst
      exact hfst
    have hd : dispatch env s req = (Except.ok initResult, s2) := by
      simp [dispatch, hm, hh, hr]
    refine ⟨?_, ?_, hr⟩ <;> simp [handle_request, hd]

/-- C3 witness: an `initialize` request in an environment whose engine
open fails still gets the full capability payload as its result. -/
theorem C3_init_always_succeeds_witness :
    (handle_request trivialEnv McpServer.new
      { jsonrpc := "2.0", id := some (Json.num 1), method := "initialize", params := none }).1.result
      = some initResult :=
  (C3_init_always_succeeds trivialEnv McpServer.new
    { jsonrpc := "2.0", id := some (Json.num 1), method := "initialize", params := none } rfl).1

/-- C4: a `tools/call` whose params carry a string `name` field is
answered with internal error -32603 ("ADI not initialized. Call
initialize first.") whenever the engine is absent — for any tool name
whatsoever, catalogued or not. -/
theorem C4_tools_call_requires_engine (s : McpServer) (p : Json) (nm : String)
    (hadi : s.adi = none) (hname : (p.get "name").bind Json.asStr = some nm) :
    handle_tools_call s (some p)
      = Except.error { code := -32603,
                       message := "ADI not initialized. Call initialize first.",
                       data := none } := by
  simp [handle_tools_call, hname, hadi]

/-- C4 witness: with a fresh (uninitialized) session, calling the
uncatalogued tool name "no_such_tool" yields error -32603. -/
theorem C4_tools_call_requires_engine_witness :
    handle_tools_call McpServer.new (some (Json.obj [("name", Json.str "no_such_tool")]))
      = Except.error { code := -32603,
                       message := "ADI not initialized. Call initialize first.",
                       data := none } :=
  C4_tools_call_requires_engine McpServer.new
    (Json.obj [("name", Json.str "no_such_tool")]) "no_such_tool" rfl rfl

/-- Bounds of the clamp used by the `search` tool. -/
theorem clampUsize_one_hundred (x : Nat) :
    1 ≤ clampUsize x 1 100 ∧ clampUsize x 1 100 ≤ 100 := by
  unfold clampUsize
  split
  · omega
  · split <;> omega

/-- C5: the limit the `search` tool actually passes to the engine is
always in the inclusive range [1, 100] — the handler's outcome is the
engine call at `searchLimit` of its arguments, which is clamped; a
supplied limit of 0 behaves as 1, a supplied 500 behaves as 100, and an
absent limit behaves as 10. -/
theorem C5_search_limit_clamped (s : McpServer) (adi : Adi) (p : Json)
    (hadi : s.adi = some adi) (hname : (p.get "name").bind Json.asStr = some "search") :
    handle_tools_call s (some p)
      = searchCall adi (searchQuery (argsOf p)) (searchLimit (argsOf p))
    ∧ 1 ≤ searchLimit (argsOf p) ∧ searchLimit (argsOf p) ≤ 100
    ∧ searchLimit (Json.obj [("limit", Json.num 0)]) = 1
    ∧ searchLimit (Json.obj [("limit", Json.num 500)]) = 100
    ∧ searchLimit (Json.obj []) = 10 := by
  refine ⟨?_, (clampUsize_one_hundred _).1, (clampUsize_one_hundred _).2,
    by decide, by decide, by decide⟩
  simp only [handle_tools_call, hname, hadi]
  rfl

/-- C5 witness: a concrete `search` call on a session with a present
engine is exactly the engine call at the clamped limit, and that limit
is at most 100. -/
theorem C5_search_limit_clamped_witness :
    handle_tools_call readyServer (some (Json.obj [("name", Json.str "search")]))
      = searchCall trivialAdi
          (searchQuery (argsOf (Json.obj [("name", Json.str "search")])))
          (searchLimit (argsOf (Json.obj [("name", Json.str "search")])))
    ∧ searchLimit (argsOf (Json.obj [("name", Json.str "search")])) ≤ 100 :=
  ⟨(C5_search_limit_clamped readyServer trivialAdi
      (Json.obj [("name", Json.str "search")]) rfl rfl).1,
   (C5_search_limit_clamped readyServer trivialAdi
      (Json.obj [("name", Json.str "search")]) rfl rfl).2.2.1⟩

/-- C6: subscription bookkeeping is pure set algebra: subscribe then
unsubscribe of `u` leaves the set equal to the original set minus `u`
(so for a previously absent `u` the original set is restored), repeated
subscribe has no additional effect, unsubscribing a non-member changes
nothing, and every such call (on any starting state) succeeds with an
empty-object result. -/
theorem C6_subscription_algebra (s : McpServer) (p : Json) (u : String)
    (hu : (p.get "uri").bind Json.asStr = some u) :
    ((handle_resources_unsubscribe (handle_resources_subscribe s (some p)).2
        (some p)).2.subscribed_resources = s.subscribed_resources.erase u)
    ∧ ((handle_resources_subscribe (handle_resources_subscribe s (some p)).2
        (some p)).2.subscribed_resources
        = (handle_resources_subscribe s (some p)).2.subscribed_resources)
    ∧ (u ∉ s.subscribed_resources →
        (handle_resources_unsubscribe s (some p)).2.subscribed_resources
          = s.subscribed_resources)
    ∧ (handle_resources_subscribe s (some p)).1 = Except.ok (Json.obj [])
    ∧ (handle_resources_unsubscribe s (some p)).1 = Except.ok (Json.obj [])
    ∧ (handle_resources_unsubscribe (handle_resources_subscribe s (some p)).2
        (some p)).1 = Except.ok (Json.obj [])
    ∧ (handle_resources_subscribe (handle_resources_subscribe s (some p)).2
        (some p)).1 = Except.ok (Json.obj []) := by
  simp only [handle_resources_subscribe, handle_resources_unsubscribe, hu]
  refine ⟨Finset.erase_insert_eq_erase _ _, Finset.insert_idem _ _,
    fun h => Finset.erase_eq_of_not_mem h, by trivial, by trivial, by trivial, by trivial⟩

/-- C6 witness: on a fresh session, subscribing and then unsubscribing
the URI "adi://status" leaves the subscription set equal to the original
set minus that URI (i.e. still empty). -/
theorem C6_subscription_algebra_witness :
    (handle_resources_unsubscribe
        (handle_resources_subscribe McpServer.new
          (some (Json.obj [("uri", Json.str "adi://status")]))).2
        (some (Json.obj [("uri", Json.str "adi://status")]))).2.subscribed_resources
      = McpServer.new.subscribed_resources.erase "adi://status" :=
  (C6_subscription_algebra McpServer.new
    (Json.obj [("uri", Json.str "adi://status")]) "adi://status" rfl).1

/-- A symbol URI never equals the virtual status URI (they differ at
character 7). -/
theorem symbolUri_ne_status (t : String) : ("adi://symbol/" ++ t) ≠ "adi://status" := by
  intro h
  have e1 : ("adi://symbol/" ++ t).data.get? 7 = some 'y' := rfl
  rw [h] at e1
  exact absurd e1 (by decide)

/-- A symbol URI never equals the virtual tree URI (they differ at
character 6). -/
theorem symbolUri_ne_tree (t : String) : ("adi://symbol/" ++ t) ≠ "adi://tree" := by
  intro h
  have e1 : ("adi://symbol/" ++ t).data.get? 6 = some 's' := rfl
  rw [h] at e1
  exact absurd e1 (by decide)

/-- A symbol URI never equals the virtual config URI (they differ at
character 6). -/
theorem symbolUri_ne_config (t : String) : ("adi://symbol/" ++ t) ≠ "adi://config" := by
  intro h
  have e1 : ("adi://symbol/" ++ t).data.get? 6 = some 's' := rfl
  rw [h] at e1
  exact absurd e1 (by decide)

/-- C7: for a `resources/read` of `adi://symbol/{id}` with the engine
present: when the trailing segment parses and the symbol lookup
succeeds, a usage-lookup failure is tolerated — the read still succeeds
and the usage statistics are absent from the returned content (the
`usage` field is `null`); when the trailing segment does not parse as an
integer, the response is invalid-params error -32602. -/
theorem C7_symbol_read_usage_tolerated (env : Env) (s : McpServer) (adi : Adi)
    (t : String) (p : Json)
    (hadi : s.adi = some adi)
    (hu : (p.get "uri").bind Json.asStr = some ("adi://symbol/" ++ t)) :
    (∀ i symJ e, parseI64 t = some i → adi.get_symbol i = Except.ok symJ →
        adi.get_symbol_usage i = Except.error e →
        handle_resources_read env s (some p)
          = Except.ok (symbolReadResult ("adi://symbol/" ++ t) symJ none))
    ∧ (parseI64 t = none →
        handle_resources_read env s (some p)
          = Except.error { code := -32602, message := "Invalid symbol ID", data := none }) := by
  have hne1 := symbolUri_ne_status t
  have hne2 := symbolUri_ne_tree t
  have hne3 := symbolUri_ne_config t
  have hf : startsWithStr ("adi://symbol/" ++ t) "adi://file/" = false := rfl
  have hs : startsWithStr ("adi://symbol/" ++ t) "adi://symbol/" = true := rfl
  have hstrip : stripLeading ("adi://symbol/" ++ t) "adi://symbol/" = t := rfl
  constructor
  · intro i symJ e hparse hsym husage
    simp only [handle_resources_read, hu, hadi, if_neg hne1, if_neg hne2, if_neg hne3,
      hf, hs, hstrip, hparse, hsym, husage]
    rfl
  · intro hparse
    simp only [handle_resources_read, hu, hadi, if_neg hne1, if_neg hne2, if_neg hne3,
      hf, hs, hstrip, hparse]
    rfl

/-- C7 witness: with an engine whose symbol lookup succeeds and whose
usage lookup fails, reading `adi://symbol/5` succeeds with a null
`usage` field, and reading `adi://symbol/x` is invalid-params -32602. -/
theorem C7_symbol_read_usage_tolerated_witness :
    handle_resources_read trivialEnv symServer
        (some (Json.obj [("uri", Json.str "adi://symbol/5")]))
      = Except.ok (symbolReadResult "adi://symbol/5" Json.null none)
    ∧ handle_resources_read trivialEnv symServer
        (some (Json.obj [("uri", Json.str "adi://symbol/x")]))
      = Except.error { code := -32602, message := "Invalid symbol ID", data := none } :=
  ⟨(C7_symbol_read_usage_tolerated trivialEnv symServer symAdi "5"
      (Json.obj [("uri", Json.str "adi://symbol/5")]) rfl rfl).1
      5 Json.null "usage unavailable" (by decide) rfl rfl,
   (C7_symbol_read_usage_tolerated trivialEnv symServer symAdi "x"
      (Json.obj [("uri", Json.str "adi://symbol/x")]) rfl rfl).2 (by decide)⟩

/-- C8: completing the prompt argument `focus` with the engine present
returns exactly the members of the fixed candidate set {security,
performance, style, bugs, general} containing the supplied value as a
substring, in that fixed order, with `hasMore: false`; the value "sec"
yields exactly ["security"]. -/
theorem C8_focus_completion (s : McpServer) (adi : Adi) (p r : Json) (v : String)
    (hadi : s.adi = some adi)
    (href : p.get "ref" = some r)
    (htype : (r.get "type").bind Json.asStr = some "ref/prompt")
    (hname : ((p.get "argument").bind (fun a => a.get "name")).bind Json.asStr = some "focus")
    (hval : ((p.get "argument").bind (fun a => a.get "value")).bind Json.asStr = some v) :
    handle_completion s (some p)
      = Except.ok (completionResult (focusCandidates.filter (fun f => strContains f v)))
    ∧ focusCandidates.filter (fun f => strContains f "sec") = ["security"] := by
  refine ⟨?_, by decide⟩
  simp only [handle_completion, href, htype, hname, hval, hadi, Option.getD_some,
    focusCandidates]
  rw [if_neg (by decide), if_neg (by decide), if_pos (by decide)]

/-- C8 witness: the concrete completion request from the spec's test
("ref/prompt" / "focus" / value "sec") yields exactly ["security"] with
`hasMore: false`. -/
theorem C8_focus_completion_witness :
    handle_completion readyServer
        (some (Json.obj [("ref", Json.obj [("type", Json.str "ref/prompt"),
                                           ("name", Json.str "code_review")]),
                         ("argument", Json.obj [("name", Json.str "focus"),
                                                ("value", Json.str "sec")])]))
      = Except.ok (completionResult ["security"]) :=
  (C8_focus_completion readyServer trivialAdi
    (Json.obj [("ref", Json.obj [("type", Json.str "ref/prompt"),
                                 ("name", Json.str "code_review")]),
               ("argument", Json.obj [("name", Json.str "focus"),
                                      ("value", Json.str "sec")])])
    (Json.obj [("type", Json.str "ref/prompt"), ("name", Json.str "code_review")])
    "sec" rfl rfl rfl rfl rfl).1

/-- The session state a response leaves behind is the one the routed
handler produced. -/
theorem handle_request_snd (env : Env) (s : McpServer) (req : JsonRpcRequest) :
    (handle_request env s req).2 = (dispatch env s req).2 := by
  cases hd : dispatch env s req with
  | mk r s2 => cases r <;> simp [handle_request, hd]

/-- C9: every method other than `initialize`, `resources/subscribe` and
`resources/unsubscribe` leaves the entire session state (engine, project
path, subscription set) unchanged — including `tools/call` and
`prompts/get`, on success and on error alike. -/
theorem C9_frame (env : Env) (s : McpServer) (req : JsonRpcRequest)
    (h1 : req.method ≠ "initialize")
    (h2 : req.method ≠ "resources/subscribe")
    (h3 : req.method ≠ "resources/unsubscribe") :
    (handle_request env s req).2 = s := by
  rw [handle_request_snd]
  unfold dispatch
  split <;> simp_all

/-- C9 witness: a `tools/call` on a fresh session (which errors with
-32603) leaves the session state unchanged. -/
theorem C9_frame_witness :
    (handle_request trivialEnv McpServer.new
      { jsonrpc := "2.0", id := some (Json.num 3), method := "tools/call",
        params := some (Json.obj [("name", Json.str "status")]) }).2 = McpServer.new :=
  C9_frame trivialEnv McpServer.new
    { jsonrpc := "2.0", id := some (Json.num 3), method := "tools/call",
      params := some (Json.obj [("name", Json.str "status")]) }
    (by decide) (by decide) (by decide)

/-- C10: an `initialize` whose params carry a string `rootUri` not
starting with "file://" stores that string verbatim as the project path
(the scheme strip is a no-op on it); when `rootUri` is absent or not a
string, the project path keeps its previous value. -/
theorem C10_rooturi_verbatim (env : Env) (s : McpServer) (p : Json) :
    ((∀ root, (p.get "rootUri").bind Json.asStr = some root →
        startsWithStr root "file://" = false →
        (handle_init env s (some p)).2.project_path = root)
     ∧ ((p.get "rootUri").bind Json.asStr = none →
        (handle_init env s (some p)).2.project_path = s.project_path)) := by
  constructor
  · intro root hroot hpre
    have hstrip : stripLeading root "file://" = root := by
      unfold stripLeading
      rw [hpre]
      simp
    simp only [handle_init, hroot, hstrip]
    split <;> rfl
  · intro hroot
    simp only [handle_init, hroot]
    split <;> rfl

/-- C10 witness: `rootUri` "/srv/proj" (no "file://" scheme) becomes the
project path verbatim, and an empty params object leaves the default
project path unchanged. -/
theorem C10_rooturi_verbatim_witness :
    (handle_init trivialEnv McpServer.new
        (some (Json.obj [("rootUri", Json.str "/srv/proj")]))).2.project_path = "/srv/proj"
    ∧ (handle_init trivialEnv McpServer.new
        (some (Json.obj []))).2.project_path = McpServer.new.project_path :=
  ⟨(C10_rooturi_verbatim trivialEnv McpServer.new
      (Json.obj [("rootUri", Json.str "/srv/proj")])).1 "/srv/proj" rfl (by decide),
   (C10_rooturi_verbatim trivialEnv McpServer.new (Json.obj [])).2 rfl⟩

end Mcp
